import Mathlib

/-!
Verification of the mirall journal store (`src/csync_journal.c`) and the
command-line sync session controller (`src/cmd/cmd.cpp`).

The C code interacts with SQLite and the file system.  We embed it
shallowly: the SQLite handle is modelled by an environment (`DbEnv`) that
records, for the statement the caller passes, the outcome of each
`sqlite3_prepare` attempt, the outcome of each `sqlite3_step` call and the
return code of `sqlite3_finalize`, per prepare round (the code re-prepares
after `SQLITE_SCHEMA`).  A list environment means: element `i` is the
result of the `i`-th call; once the list is exhausted the call succeeds
(`prepare` returns OK, `step` returns DONE).  Memory allocation
(`c_strlist_new`) is modelled as always succeeding; `c_strlist_add` keeps
its capacity check from the `c_lib` helper library (not under `src/`):
a `c_strlist_t` holds at most `size` strings and `add` fails when full.
-/

set_option autoImplicit false

namespace Mirall

/-- Model of `c_strlist_t`: a string list with a fixed capacity `size`
(`count` is `items.length`). -/
structure c_strlist_t where
  size : Nat
  items : List String
  deriving DecidableEq, Repr

/-- Model of `c_strlist_new`: allocation is assumed to succeed. -/
def c_strlist_new (size : Nat) : c_strlist_t := ⟨size, []⟩

/-- Model of `c_strlist_add`: appends while the count is below the
capacity, fails (returns `none`, the C error return) when full. -/
def c_strlist_add (l : c_strlist_t) (s : String) : Option c_strlist_t :=
  if l.items.length < l.size then some ⟨l.size, l.items ++ [s]⟩ else none

/-- Add a whole list of strings in order, failing if any add fails. -/
def c_strlist_add_all (l : c_strlist_t) (ss : List String) : Option c_strlist_t :=
  ss.foldlM c_strlist_add l

/-- Outcome of one `sqlite3_prepare` call. -/
inductive PrepRes where
  /-- `SQLITE_OK` -/
  | ok
  /-- `SQLITE_BUSY` -/
  | busy
  /-- any other (error) return code -/
  | err
  deriving DecidableEq, Repr

/-- Outcome of one `sqlite3_step` call.  `SQLITE_MISUSE` and every return
code other than BUSY/DONE/ERROR take the same path through the C code as
`SQLITE_ROW` (MISUSE additionally logs), so they are all modelled by
`row` carrying the column texts the handle would yield. -/
inductive StepRes where
  /-- `SQLITE_BUSY` -/
  | busy
  /-- `SQLITE_DONE` -/
  | done
  /-- `SQLITE_ERROR` -/
  | error
  /-- `SQLITE_ROW` (or any other code): the column texts of the row -/
  | row (vals : List String)
  deriving DecidableEq, Repr

/-- Return code of `sqlite3_finalize`, as far as the C code inspects it. -/
inductive FinRes where
  /-- `SQLITE_OK` -/
  | ok
  /-- `SQLITE_SCHEMA` -/
  | schema
  /-- any other return code -/
  | other
  deriving DecidableEq, Repr

/-- Behaviour of the handle during one prepare-and-step round. -/
structure Round where
  preps : List PrepRes
  cols : Nat
  steps : List StepRes
  finRc : FinRes
  deriving DecidableEq, Repr

/-- A round in which every call succeeds and the statement yields no rows. -/
def defaultRound : Round := ⟨[], 0, [], .ok⟩

/-- Behaviour of one SQLite handle for the statement under execution:
round `i` describes the `i`-th prepare-and-step round (rounds past the
end of the list behave like `defaultRound`), plus the value
`sqlite3_last_insert_rowid` would report. -/
structure DbEnv where
  rounds : List Round
  lastInsertRowid : Int
  deriving DecidableEq, Repr

/-- The inner prepare loop of `csync_journal_query`/`csync_journal_insert`:
`do { ... err = sqlite3_prepare(...); } while (err == SQLITE_BUSY && busy_count++ < 120)`.
`bc` is the value of `busy_count` before the loop condition is evaluated.
Returns the final `err` together with the number of prepare calls made. -/
def prepGo (preps : List PrepRes) (bc : Nat) : PrepRes × Nat :=
  match preps with
  | [] => (.ok, 1)
  | p :: rest =>
    match p with
    | .busy =>
      if bc < 120 then
        let r := prepGo rest (bc + 1)
        (r.1, r.2 + 1)
      else (.busy, 1)
    | .ok => (.ok, 1)
    | .err => (.err, 1)

/-- Final value of `err` when the stepping loop of `csync_journal_query`
exits. -/
inductive StepErr where
  /-- loop aborted with `err = SQLITE_BUSY` after the busy counter maxed out -/
  | busy
  /-- loop exited with `err = SQLITE_DONE` -/
  | done
  /-- loop exited with `err = SQLITE_ERROR` -/
  | error
  /-- `c_strlist_add` failed: the C code returns NULL from the whole function -/
  | listFull
  deriving DecidableEq, Repr

/-- The column texts the C code reads for one row: it fetches exactly
`column_count` texts (`sqlite3_column_text(stmt, i)` for `i < cols`). -/
def rowItems (cols : Nat) (vals : List String) : List String :=
  (List.range cols).map (fun j => vals.getD j "")

/-- The row-stepping loop of `csync_journal_query` (lines 167-202): each
row allocates a fresh `c_strlist_t` of capacity `cols` into `result`,
discarding the previous one; BUSY increments the shared busy counter and
aborts once `busy_count++ > 120`.  Returns the final `err`, the `result`
variable, and the number of `sqlite3_step` calls made. -/
def stepGo (cols : Nat) (steps : List StepRes) (res : Option c_strlist_t) (bc : Nat) :
    StepErr × Option c_strlist_t × Nat :=
  match steps with
  | [] => (.done, res, 1)
  | s :: rest =>
    match s with
    | .busy =>
      if bc > 120 then (.busy, res, 1)
      else
        let r := stepGo cols rest res (bc + 1)
        (r.1, r.2.1, r.2.2 + 1)
    | .done => (.done, res, 1)
    | .error => (.error, res, 1)
    | .row vals =>
      match c_strlist_add_all (c_strlist_new cols) (rowItems cols vals) with
      | none => (.listFull, none, 1)
      | some l =>
        let r := stepGo cols rest (some l) bc
        (r.1, r.2.1, r.2.2 + 1)

/-- The outer retry loop of `csync_journal_query` (lines 144-223): round
`i` of the environment describes iteration `i`; the loop repeats only
when `sqlite3_finalize` returned `SQLITE_SCHEMA` and fewer than 10
retries happened.  With the rounds exhausted the iteration runs against
`defaultRound` (prepare OK, an immediate DONE step, finalize OK), which
leaves `result` as it is and exits the loop — that is the `[]` case. -/
def queryLoop : List Round → Option c_strlist_t → Nat → Option c_strlist_t
  | [], res, _ => res
  | r :: rest, res, retry =>
    let p := prepGo r.preps 0
    match p.1 with
    | .ok =>
      let s := stepGo r.cols r.steps res 0
      match s.1 with
      | .listFull => none
      | serr =>
        let res1 := s.2.1
        let res2 := if serr ≠ .done ∧ r.finRc ≠ .schema then some (c_strlist_new 1) else res1
        match r.finRc with
        | .schema =>
          if retry + 1 < 10 then queryLoop rest res2 (retry + 1)
          else some (c_strlist_new 1)
        | _ => res2
    | _ => some (c_strlist_new 1)

/-- Embedding of `csync_journal_query` (src/csync_journal.c lines 133-226).
The statement string is what the caller hands to `sqlite3_prepare`; the
handle's responses to it are described by `db`.  Returns `none` for a NULL
return. -/
def csync_journal_query (db : DbEnv) (statement : String) : Option c_strlist_t :=
  let _ := statement
  queryLoop db.rounds none 0

/-- The row-stepping loop of `csync_journal_insert` (lines 261-281): like
the query loop but without result building (the branch for `SQLITE_ROW`
and other codes just iterates again).  Returns the final `err` and the
number of `sqlite3_step` calls. -/
def insertStepGo (steps : List StepRes) (bc : Nat) : StepErr × Nat :=
  match steps with
  | [] => (.done, 1)
  | s :: rest =>
    match s with
    | .busy =>
      if bc > 120 then (.busy, 1)
      else
        let r := insertStepGo rest (bc + 1)
        (r.1, r.2 + 1)
    | .done => (.done, 1)
    | .error => (.error, 1)
    | .row _ =>
      let r := insertStepGo rest bc
      (r.1, r.2 + 1)

/-- The outer retry loop of `csync_journal_insert` (lines 240-300).
Returns the total number of prepare calls and step calls made
(instrumentation; the C function computes no value in this loop).  The
`[]` case is an iteration against `defaultRound` (one prepare, one DONE
step, finalize OK), which exits the loop. -/
def insertLoop : List Round → Nat → Nat × Nat
  | [], _ => (1, 1)
  | r :: rest, retry =>
    let p := prepGo r.preps 0
    match p.1 with
    | .ok =>
      let s := insertStepGo r.steps 0
      match r.finRc with
      | .schema =>
        if retry + 1 < 10 then
          let rec_ := insertLoop rest (retry + 1)
          (p.2 + rec_.1, s.2 + rec_.2)
        else (p.2, s.2)
      | _ => (p.2, s.2)
    | _ => (p.2, 0)

/-- Embedding of `csync_journal_insert` (src/csync_journal.c lines
228-303).  The first component is the C return value: 0 for the empty
statement, otherwise `sqlite3_last_insert_rowid(ctx->journal)` whatever
happened in the loop.  The second and third components are
instrumentation: the number of prepare calls and step calls made. -/
def csync_journal_insert (db : DbEnv) (statement : String) : Int × Nat × Nat :=
  if statement = "" then (0, 0, 0)
  else
    let c := insertLoop db.rounds 0
    (db.lastInsertRowid, c.1, c.2)

/-- The probe statement `csync_journal_is_empty` runs. -/
def probeStmt : String := "SELECT COUNT(key) FROM metadata LIMIT 1 OFFSET 0;"

/-- Embedding of `csync_journal_is_empty` (lines 74-85): true iff the
probe query returned a non-NULL result with zero entries.  `db` is the
behaviour of the handle `ctx->journal` for the probe statement. -/
def csync_journal_is_empty (db : DbEnv) : Bool :=
  match csync_journal_query db probeStmt with
  | some l => l.items.length == 0
  | none => false

/-! ### File system and `csync_journal_check`/`csync_journal_load`

The file system is a map from paths to file contents (byte lists); `none`
means the file does not exist.  `sqlite3_open` success is environmental
(`openOk`, a function of the path and of what is currently stored there);
a successful open on a missing path creates an empty file (SQLite creates
the database lazily, so the fresh file is empty).  `open(2)`/`read(2)` on
an existing file are modelled as succeeding. -/

/-- A file system: path to content. -/
def Fs : Type := String → Option (List Nat)

/-- Update the file system at one path. -/
def fsSet (fs : Fs) (p : String) (v : Option (List Nat)) : Fs :=
  fun q => if q = p then v else fs q

/-- Content of a freshly created (still empty) database file. -/
def emptyDb : List Nat := []

/-- The bytes of the `"SQLite format 3"` magic string the check compares
against (no terminating NUL; `c_streq` stops at the first NUL). -/
def magicBytes : List Nat :=
  [83, 81, 76, 105, 116, 101, 32, 102, 111, 114, 109, 97, 116, 32, 51]

/-- The 16-byte zero-initialised buffer after `read(fd, buf, 16)`: the
first `min 16 (length c)` bytes of the file, zero-padded to 16.  (The C
also writes `buf[16] = 0`, one past the end of the array; the comparison
itself only looks at the NUL-terminated prefix modelled here.) -/
def bufOf (c : List Nat) : List Nat :=
  c.take 16 ++ List.replicate (16 - (c.take 16).length) 0

/-- The C string stored in a byte buffer: the prefix before the first NUL. -/
def cstrOf (l : List Nat) : List Nat := l.takeWhile (· != 0)

/-- Environment for the load path: whether `sqlite3_open` succeeds at a
path given what is stored there, whether `c_copy src dst` succeeds, and
whether `asprintf` succeeds. -/
structure LoadEnv where
  openOk : String → Option (List Nat) → Bool
  copyOk : String → String → Bool
  asprintfOk : Bool

/-- The create-database tail of `csync_journal_check` (lines 65-71):
open the path (creating an empty file if absent); -1 if the open fails. -/
def createDb (env : LoadEnv) (fs : Fs) (journal : String) : Int × Fs :=
  if env.openOk journal (fs journal) then
    (0, match fs journal with
        | some _ => fs
        | none => fsSet fs journal (some emptyDb))
  else (-1, fs)

/-- Embedding of `csync_journal_check` (src/csync_journal.c lines 38-72):
validate the magic header of an existing journal; on a bad header or a
failed open the file is unlinked and a fresh database is created. -/
def csync_journal_check (env : LoadEnv) (fs : Fs) (journal : String) : Int × Fs :=
  match fs journal with
  | some c =>
    if cstrOf (bufOf c) = magicBytes then
      if env.openOk journal (some c) then (0, fs)
      else createDb env (fsSet fs journal none) journal
    else createDb env (fsSet fs journal none) journal
  | none => createDb env fs journal

/-- The context fields `csync_journal_load` touches: the path the live
SQLite handle is bound to (`ctx->journal`; `none` when no handle is open)
and the `ctx->journal_exists` flag (the C int 0/1, as a Bool). -/
structure Ctx where
  journal : Option String
  journal_exists : Bool
  deriving DecidableEq, Repr

/-- Embedding of `csync_journal_load` (src/csync_journal.c lines 87-128).
`db` is the behaviour the sidecar handle exhibits for the
`csync_journal_is_empty` probe once opened.  Returns the C return value
and the resulting file system and context.  Note that every path of the
C function ends in `return 0`: the `rc = -1` assignments flow to a
`return 0` statement, so the returned value is always 0. -/
def csync_journal_load (env : LoadEnv) (db : DbEnv) (fs : Fs) (ctx : Ctx)
    (journal : String) : Int × Fs × Ctx :=
  let chk := csync_journal_check env fs journal
  let fs1 := chk.2
  if chk.1 < 0 then (0, fs1, ctx)
  else if ¬ env.asprintfOk then (0, fs1, ctx)
  else
    let tmp := journal ++ ".ctmp"
    match fs1 journal, env.copyOk journal tmp with
    | some c, true =>
      let fs2 := fsSet fs1 tmp (some c)
      if env.openOk tmp (some c) then
        let ctx1 : Ctx := { ctx with journal := some tmp }
        if csync_journal_is_empty db then
          (0, fs2, { ctx1 with journal_exists := false })
        else
          (0, fs2, { ctx1 with journal_exists := true })
      else (0, fs2, ctx)
    | _, _ => (0, fs1, ctx)

/-- Model of a write issued through the live handle (as
`csync_journal_insert` does): the bytes land in the file at the handle's
path and nowhere else.  `c` is the new content of that file. -/
def handleWrite (ctx : Ctx) (fs : Fs) (c : List Nat) : Fs :=
  match ctx.journal with
  | some p => fsSet fs p (some c)
  | none => fs

/-- A handle on a freshly created database: the `metadata` table does not
exist, so preparing the probe statement fails with an error. -/
def freshDb : DbEnv := ⟨[⟨[.err], 0, [], .ok⟩], 0⟩

/-- A handle on a permanently locked database: every prepare attempt
returns `SQLITE_BUSY`. -/
def busyDb : DbEnv := ⟨[⟨List.replicate 125 .busy, 0, [], .ok⟩], 0⟩

/-! ### The command-line client (`src/cmd/cmd.cpp`)

QStrings that the code distinguishes from the empty string by `isNull()`
(only `options.proxy`) are modelled as `Option String`; the rest as plain
`String` (a default-constructed QString is empty).  `exit(1)` via
`help()` and the source-dir check are modelled with `Except Nat`. -/

/-- Model of `struct CmdOptions` (cmd.cpp lines 46-58). -/
structure CmdOptions where
  source_dir : String
  target_url : String
  config_directory : String
  user : String
  password : String
  proxy : Option String
  silent : Bool
  trustSSL : Bool
  useNetrc : Bool
  interactive : Bool
  exclude : String
  deriving DecidableEq, Repr

/-- The options value `main` passes to `parseOptions` (cmd.cpp lines
202-206): QString members default-constructed, the four Booleans set. -/
def initialOptions : CmdOptions :=
  { source_dir := "", target_url := "", config_directory := "", user := "",
    password := "", proxy := none, silent := false, trustSSL := false,
    useNetrc := false, interactive := true, exclude := "" }

/-- Does `pat` occur as a prefix of some suffix of the list?  (Structural
helper so that the kernel can evaluate it.) -/
def containsAux (pat : List Char) : List Char → Bool
  | [] => pat.isEmpty
  | c :: cs => pat.isPrefixOf (c :: cs) || containsAux pat cs

/-- Substring test, modelling `QString::contains`. -/
def strContains (s pat : String) : Bool := containsAux pat.toList s.toList

/-- Model of `QString::startsWith`. -/
def qStartsWith (s pat : String) : Bool := pat.toList.isPrefixOf s.toList

/-- Model of `QString::endsWith`. -/
def qEndsWith (s pat : String) : Bool := pat.toList.isSuffixOf s.toList

/-- Model of removing the first `n` characters (`QString::remove(0, n)` /
the tail kept by `QString::replace(0, n, ...)`). -/
def qDrop (s : String) (n : Nat) : String := String.mk (s.toList.drop n)

/-- Split a character list at every occurrence of `sep`, keeping empty
parts. -/
def splitChars (sep : Char) : List Char → List (List Char)
  | [] => [[]]
  | c :: cs =>
    match splitChars sep cs with
    | [] => [[]]
    | g :: gs => if c = sep then [] :: g :: gs else (c :: g) :: gs

/-- Model of `QString::split` on a one-character separator with the
default `KeepEmptyParts` behaviour. -/
def qSplit (s : String) (sep : Char) : List String :=
  (splitChars sep s.toList).map String.mk

/-- Model of `QStringListIterator::peekNext`.  On an exhausted iterator the
Qt call is undefined; the value chosen here is never reached on the
well-formed command lines the theorems use. -/
def peekNext (l : List String) : String := l.headD ""

/-- The target-URL fix-up in `parseOptions` (cmd.cpp lines 150-159):
append `remote.php/webdav` (with a separating slash) when missing, then
replace a leading `http` with `owncloud`. -/
def fixupUrl (u : String) : String :=
  let u1 :=
    if ¬ strContains u "remote.php/webdav" then
      (if qEndsWith u "/" then u else u ++ "/") ++ "remote.php/webdav"
    else u
  if qStartsWith u1 "http" then "owncloud" ++ qDrop u1 4 else u1

/-- The option loop of `parseOptions` (cmd.cpp lines 170-192), one
iteration per list element.  Any unrecognised option calls `help()`,
which exits with status 1.  In the branches that consume a value,
`it.next()` on an exhausted iterator is undefined behaviour in Qt; the
model stops with the empty value there (never exercised by the claims'
well-formed command lines). -/
def parseFlags : List String → CmdOptions → Except Nat CmdOptions
  | [], o => .ok o
  | opt :: rest, o =>
    if opt = "--httpproxy" ∧ ¬ qStartsWith (peekNext rest) "-" then
      match rest with
      | v :: rest2 => parseFlags rest2 { o with proxy := some v }
      | [] => .ok { o with proxy := some "" }
    else if opt = "-s" ∨ opt = "--silent" then
      parseFlags rest { o with silent := true }
    else if opt = "--trust" then
      parseFlags rest { o with trustSSL := true }
    else if opt = "-n" then
      parseFlags rest { o with useNetrc := true }
    else if opt = "--non-interactive" then
      parseFlags rest { o with interactive := false }
    else if (opt = "-u" ∨ opt = "--user") ∧ ¬ qStartsWith (peekNext rest) "-" then
      match rest with
      | v :: rest2 => parseFlags rest2 { o with user := v }
      | [] => .ok { o with user := "" }
    else if (opt = "-p" ∨ opt = "--password") ∧ ¬ qStartsWith (peekNext rest) "-" then
      match rest with
      | v :: rest2 => parseFlags rest2 { o with user := v }
      | [] => .ok { o with user := "" }
    else if opt = "--exclude" ∧ ¬ qStartsWith (peekNext rest) "-" then
      match rest with
      | v :: rest2 => parseFlags rest2 { o with exclude := v }
      | [] => .ok { o with exclude := "" }
    else .error 1

/-- Embedding of `parseOptions` (cmd.cpp lines 142-197).  `args` is the
full argument list including the program name; `fileExists` models
`QFile::exists`.  `Except.error 1` is the `exit(1)` of `help()` or of the
missing-source-dir check. -/
def parseOptions (fileExists : String → Bool) (args : List String)
    (options : CmdOptions) : Except Nat CmdOptions :=
  if args.length < 3 then .error 1
  else
    let target := fixupUrl (args.getLastD "")
    let args1 := args.dropLast
    let source := args1.getLastD ""
    if ¬ fileExists source then .error 1
    else
      let args2 := args1.dropLast
      let o1 := { options with target_url := target, source_dir := source }
      match parseFlags args2.tail o1 with
      | .ok o =>
        if o.target_url = "" ∨ o.source_dir = "" then .error 1 else .ok o
      | .error e => .error e

/-- The credential-resolution block of `main` for the non-netrc path
(cmd.cpp lines 226-247): take user/password from the options, fall back
to the URL, and finally (only when interactive) to a prompt.  The two
prompt arguments model what the user would type. -/
def resolveCredentials (o : CmdOptions) (urlUser urlPassword : String)
    (promptUser promptPassword : String) : String × String :=
  let user := if o.user = "" then urlUser else o.user
  let password := if o.password = "" then urlPassword else o.password
  if o.interactive then
    (if user = "" then promptUser else user,
     if password = "" then promptPassword else password)
  else (user, password)

/-- Model of `QString::toInt`: optional sign followed by decimal digits
(surrounding whitespace ignored), failing on overflow past the 32-bit
range; returns `(0, false)` on failure like Qt. -/
def qToInt (s : String) : Int × Bool :=
  let cs0 := s.toList.dropWhile Char.isWhitespace
  let cs := (cs0.reverse.dropWhile Char.isWhitespace).reverse
  let signed : Bool × List Char :=
    match cs with
    | '-' :: rest => (true, rest)
    | '+' :: rest => (false, rest)
    | rest => (false, rest)
  if signed.2.isEmpty ∨ ¬ signed.2.all Char.isDigit then (0, false)
  else
    let n : Nat := signed.2.foldl (fun a c => a * 10 + (c.toNat - 48)) 0
    if signed.1 then
      if n ≤ 2147483648 then (-(n : Int), true) else (0, false)
    else
      if n ≤ 2147483647 then ((n : Int), true) else (0, false)

/-- The module properties the explicit-proxy block writes (cmd.cpp lines
299-323): `proxy_type` plus optional `proxy_host` and `proxy_port`. -/
structure ProxyConfig where
  proxy_type : String
  proxy_host : Option String
  proxy_port : Option Int
  deriving DecidableEq, Repr

/-- Leading `//` stripping applied to the host part (cmd.cpp line 312). -/
def stripSlashes (h : String) : String :=
  if qStartsWith h "//" then qDrop h 2 else h

/-- Embedding of the explicit-proxy branch of `main` (cmd.cpp lines
299-323), entered when `options.proxy` is non-null; `proxy` is that
string.  `proxy_type` defaults to `NoProxy`; a 3-part split sets
`HttpProxy` whenever the host QString is non-null (a part produced by
`QString::split` never is), and the port only when `toInt` succeeded with
a nonzero value. -/
def setupExplicitProxy (proxy : String) : ProxyConfig :=
  let base : ProxyConfig := ⟨"NoProxy", none, none⟩
  let pList := qSplit proxy ':'
  if pList.length = 3 then
    let host0 : Option String := some (pList.getD 1 "")
    match host0 with
    | some h0 =>
      let host := stripSlashes h0
      let pr := qToInt (pList.getD 2 "")
      let withHost : ProxyConfig := ⟨"HttpProxy", some host, none⟩
      if pr.2 ∧ pr.1 ≠ 0 then { withHost with proxy_port := some pr.1 }
      else withHost
    | none => base
  else base

/-- Events of the restart loop of `main` (cmd.cpp lines 275-358), indexed
by the pass number: context creation (`csync_create`), construction of
the per-pass `SyncJournalDb`, context destruction (`csync_destroy`) and
socket-subsystem stop (`ne_sock_exit`). -/
inductive SyncEvent where
  | create (k : Nat)
  | journal (k : Nat)
  | destroy (k : Nat)
  | sockExit (k : Nat)
  deriving DecidableEq, Repr

/-- The events of one pass of the restart loop, in source order. -/
def passBlock (k : Nat) : List SyncEvent :=
  [.create k, .journal k, .destroy k, .sockExit k]

/-- Embedding of the `restart_sync` loop of `main` (cmd.cpp lines
275-358) on its success path: run a pass, then repeat when
`engine.isAnotherSyncNeeded()` — modelled by `needsRepeat k` for pass
`k` — is set.  `fuel` bounds the recursion (the C loop itself is
unbounded; every theorem supplies enough fuel for its engine stub). -/
def syncLoop (needsRepeat : Nat → Bool) (fuel k : Nat) : List SyncEvent :=
  match fuel with
  | 0 => []
  | fuel + 1 =>
    passBlock k ++ (if needsRepeat k then syncLoop needsRepeat fuel (k + 1) else [])

/-- Recognise a context-creation event. -/
def isCreate : SyncEvent → Bool
  | .create _ => true
  | _ => false

/-! ### Supporting lemmas -/

lemma c_strlist_add_all_ok :
    ∀ (ss : List String) (l : c_strlist_t), l.items.length + ss.length ≤ l.size →
      c_strlist_add_all l ss = some ⟨l.size, l.items ++ ss⟩ := by
  intro ss
  induction ss with
  | nil => intro l _; simp [c_strlist_add_all]
  | cons s ss ih =>
    intro l h
    have hlt : l.items.length < l.size := by simp at h; omega
    have hadd : c_strlist_add l s = some ⟨l.size, l.items ++ [s]⟩ := by
      simp [c_strlist_add, hlt]
    have := ih ⟨l.size, l.items ++ [s]⟩ (by simp at h ⊢; omega)
    simp only [c_strlist_add_all, List.foldlM_cons, hadd, Option.bind_some] at *
    simpa using this

lemma rowItems_length (cols : Nat) (vals : List String) :
    (rowItems cols vals).length = cols := by
  simp [rowItems]

lemma buildRow_eq (cols : Nat) (vals : List String) :
    c_strlist_add_all (c_strlist_new cols) (rowItems cols vals) =
      some ⟨cols, rowItems cols vals⟩ := by
  have := c_strlist_add_all_ok (rowItems cols vals) (c_strlist_new cols)
    (by simp [c_strlist_new, rowItems_length])
  simpa [c_strlist_new] using this

/-- The prepare loop never makes more than `121 - bc` calls. -/
lemma prepGo_calls_le :
    ∀ (preps : List PrepRes) (bc : Nat), bc ≤ 120 → (prepGo preps bc).2 ≤ 121 - bc := by
  intro preps
  induction preps with
  | nil => intro bc h; simp [prepGo]; omega
  | cons p rest ih =>
    intro bc h
    match p with
    | .ok => simp [prepGo]; omega
    | .err => simp [prepGo]; omega
    | .busy =>
      by_cases hbc : bc < 120
      · have := ih (bc + 1) (by omega)
        simp [prepGo, hbc]
        omega
      · simp [prepGo, hbc]; omega

/-- On a permanently busy database the prepare loop exits BUSY after
exactly `121 - bc` calls. -/
lemma prepGo_busy_replicate :
    ∀ (n bc : Nat), bc ≤ 120 → 121 - bc ≤ n →
      prepGo (List.replicate n .busy) bc = (.busy, 121 - bc) := by
  intro n
  induction n with
  | zero => intro bc h1 h2; omega
  | succ n ih =>
    intro bc h1 h2
    by_cases hbc : bc < 120
    · have := ih (bc + 1) (by omega) (by omega)
      have harith : 121 - (bc + 1) + 1 = 121 - bc := by omega
      simp only [List.replicate_succ, prepGo, hbc, if_true, this, harith]
    · have hbc' : bc = 120 := by omega
      simp [List.replicate_succ, prepGo, hbc, hbc']

/-- On a permanently busy database the query stepping loop exits BUSY
after exactly `122 - bc` step calls, leaving `result` untouched. -/
lemma stepGo_busy_replicate :
    ∀ (n : Nat) (cols : Nat) (res : Option c_strlist_t) (bc : Nat), bc ≤ 121 → 122 - bc ≤ n →
      stepGo cols (List.replicate n .busy) res bc = (.busy, res, 122 - bc) := by
  intro n
  induction n with
  | zero => intro cols res bc h1 h2; omega
  | succ n ih =>
    intro cols res bc h1 h2
    by_cases hbc : bc > 120
    · have hbc' : bc = 121 := by omega
      simp [List.replicate_succ, stepGo, hbc, hbc']
    · have := ih cols res (bc + 1) (by omega) (by omega)
      have harith : 122 - (bc + 1) + 1 = 122 - bc := by omega
      simp only [List.replicate_succ, stepGo, hbc, if_false, this, harith]

/-- On a permanently busy database the insert stepping loop exits BUSY
after exactly `122 - bc` step calls. -/
lemma insertStepGo_busy_replicate :
    ∀ (n bc : Nat), bc ≤ 121 → 122 - bc ≤ n →
      insertStepGo (List.replicate n .busy) bc = (.busy, 122 - bc) := by
  intro n
  induction n with
  | zero => intro bc h1 h2; omega
  | succ n ih =>
    intro bc h1 h2
    by_cases hbc : bc > 120
    · have hbc' : bc = 121 := by omega
      simp [List.replicate_succ, insertStepGo, hbc, hbc']
    · have := ih (bc + 1) (by omega) (by omega)
      have harith : 122 - (bc + 1) + 1 = 122 - bc := by omega
      simp only [List.replicate_succ, insertStepGo, hbc, if_false, this, harith]

/-- Stepping through a busy-free sequence of rows: every row overwrites
`result` with a fresh list holding just that row, so the loop ends DONE
with the last row (or the incoming `result` when there are no rows) after
`rows.length + 1` step calls. -/
lemma stepGo_rows (cols : Nat) :
    ∀ (rows : List (List String)) (res : Option c_strlist_t) (bc : Nat),
      stepGo cols (rows.map StepRes.row) res bc =
        (.done,
         (match rows.getLast? with
          | none => res
          | some v => some ⟨cols, rowItems cols v⟩),
         rows.length + 1) := by
  intro rows
  induction rows with
  | nil => intro res bc; simp [stepGo]
  | cons v rs ih =>
    intro res bc
    simp only [List.map_cons, stepGo, buildRow_eq, ih (some ⟨cols, rowItems cols v⟩) bc]
    cases rs with
    | nil => simp
    | cons w ws =>
      cases h : (w :: ws).getLast? with
      | none => simp [List.getLast?_eq_none_iff] at h
      | some u => simp [h]

/-- A path never equals itself with the sidecar suffix appended. -/
lemma ne_append_ctmp (j : String) : j ≠ j ++ ".ctmp" := by
  intro h
  have h2 : j.length = (j ++ ".ctmp").length := by rw [← h]
  rw [String.length_append] at h2
  have h5 : ".ctmp".length = 5 := rfl
  omega

/-- The restart loop driven by an engine stub that asks for a repeat
exactly while `k < N`: starting at pass `s` with `c` passes left and
enough fuel, the trace is the concatenation of the per-pass blocks for
passes `s, s+1, ..., s+c-1`. -/
lemma syncLoop_run (N : Nat) :
    ∀ (c s fuel : Nat), 1 ≤ c → s + c = N + 1 → c ≤ fuel →
      syncLoop (fun k => decide (k < N)) fuel s = (List.range' s c).flatMap passBlock := by
  intro c
  induction c with
  | zero => intro s fuel h1; omega
  | succ c ih =>
    intro s fuel h1 h2 h3
    obtain ⟨fuel, rfl⟩ : ∃ f, fuel = f + 1 := ⟨fuel - 1, by omega⟩
    cases c with
    | zero =>
      have hs : s = N := by omega
      subst hs
      simp [syncLoop, List.range']
    | succ c =>
      have hlt : s < N := by omega
      have hih := ih (s + 1) fuel (by omega) (by omega) (by omega)
      have hd : decide (s < N) = true := by simpa using hlt
      simp only [syncLoop, hd, if_true, hih, List.range']
      simp [List.flatMap_cons]

/-! ### Concrete fixtures used by witnesses and counterexamples -/

/-- A file system holding exactly one file. -/
def fsJust (p : String) (c : List Nat) : Fs :=
  fun q => if q = p then some c else none

/-- Content beginning with the full 16-byte SQLite magic header
(`"SQLite format 3"` plus its terminating NUL), as a valid journal has. -/
def validHeader : List Nat := magicBytes ++ [0, 1, 16, 0]

/-- An environment in which every open and copy succeeds. -/
def happyEnv : LoadEnv := ⟨fun _ _ => true, fun _ _ => true, true⟩

/-- An environment in which the sidecar copy fails (`c_copy` returns -1)
and everything else succeeds. -/
def copyFailEnv : LoadEnv := ⟨fun _ _ => true, fun _ _ => false, true⟩

/-- A handle whose statement yields two one-column rows, `"a"` then `"b"`,
with no contention. -/
def twoRowDb : DbEnv := ⟨[⟨[], 1, [.row ["a"], .row ["b"]], .ok⟩], 0⟩

/-- A handle on a database that stays permanently locked during the
stepping phase: prepare succeeds, every step call returns BUSY, and
finalizing the aborted statement does not report `SQLITE_SCHEMA`. -/
def busyStepDb : DbEnv := ⟨[⟨[], 0, List.replicate 130 .busy, .other⟩], 0⟩

/-- A handle whose schema keeps drifting: every round finalizes with
`SQLITE_SCHEMA` (each round itself prepares and steps cleanly). -/
def schemaDb : DbEnv := ⟨List.replicate 12 ⟨[], 0, [], .schema⟩, 7⟩

/-! ### Claims -/

/-- C1: the specification says `csync_journal_load` returns an error
(non-zero) exactly when the sidecar copy cannot be created or the sidecar
cannot be opened.  The code never does: every path of the function, the
failure paths included, flows to `return 0` (the `rc = -1` assignments on
lines 92, 103, 108 and 114 are dead stores).  The first conjunct proves
the return value is 0 for every environment; the second evaluates the
failing input of the claim — a valid journal whose sidecar copy fails —
where the claim demands a non-zero return and the code yields 0 with no
handle opened. -/
theorem C1_load_always_returns_zero :
    (∀ (env : LoadEnv) (db : DbEnv) (fs : Fs) (ctx : Ctx) (j : String),
      (csync_journal_load env db fs ctx j).1 = 0) ∧
    csync_journal_load copyFailEnv freshDb (fsJust "journal.db" validHeader)
        ⟨none, false⟩ "journal.db" =
      (0, fsJust "journal.db" validHeader, ⟨none, false⟩) := by
  constructor
  · intro env db fs ctx j
    simp only [csync_journal_load]
    repeat' split
    all_goals rfl
  · rfl

/-- C2 counterexample: a statement whose execution produces the two rows
`["a"]` and `["b"]` does not yield a result containing both rows — the
returned list holds only the values of the second row, and the first
row's value `"a"` is not in it (each row overwrite discards its
predecessor, src/csync_journal.c line 189). -/
theorem C2_cex_first_row_lost :
    csync_journal_query twoRowDb "SELECT key FROM metadata;" =
      some ⟨1, ["b"]⟩ ∧
    ("a" ∈ (c_strlist_t.mk 1 ["b"]).items) = False := by
  constructor
  · rfl
  · simp

/-- C2 amended: `csync_journal_query` keeps only the most recent row.
For an execution that produces rows `r_1, ..., r_N` (no contention, clean
finalize), the result is a single flat ordered sequence of the LAST row's
column text values (in column order); earlier rows are discarded, and a
zero-row execution returns the NULL result. -/
theorem C2_query_returns_last_row (cols : Nat) (rows : List (List String))
    (rid : Int) (s : String) :
    csync_journal_query ⟨[⟨[], cols, rows.map .row, .ok⟩], rid⟩ s =
      rows.getLast?.map (fun v => ⟨cols, rowItems cols v⟩) := by
  cases h : rows.getLast? with
  | none =>
    have hnil : rows = [] := by simpa [List.getLast?_eq_none_iff] using h
    subst hnil
    rfl
  | some v =>
    simp only [csync_journal_query, queryLoop, prepGo, stepGo_rows cols rows none 0, h]
    simp

/-- C4 counterexample: the claim bounds the row-stepping busy retries by
120, i.e. at most 121 step calls against a permanently locked database.
The loop's guard is `busy_count++ > 120`, so it makes 122 step calls —
121 retries after the initial attempt — before aborting. -/
theorem C4_cex_step_phase_makes_122_calls :
    stepGo 0 (List.replicate 130 StepRes.busy) none 0 =
      (.busy, none, 122) ∧ ¬ (122 ≤ 121) := by
  constructor
  · exact stepGo_busy_replicate 130 0 none 0 (by omega) (by omega)
  · omega

/-- C4 amended: against a permanently locked database the prepare phase
of both `csync_journal_query` and `csync_journal_insert` gives up after
exactly 121 attempts (120 retries, matching the claim) and never makes
more; the row-stepping phase of either function aborts after exactly 122
step calls (121 retries, one more than the claim's 120); neither function
retries indefinitely, and `query` returns the sentinel failure result — a
capacity-1 list with no entries — after giving up in either phase, while
`insert` gives up and falls through to its normal return. -/
theorem C4_busy_retry_bounds :
    (∀ preps : List PrepRes, (prepGo preps 0).2 ≤ 121) ∧
    (∀ n : Nat, 121 ≤ n → prepGo (List.replicate n .busy) 0 = (.busy, 121)) ∧
    (∀ (cols : Nat) (res : Option c_strlist_t) (n : Nat), 122 ≤ n →
      stepGo cols (List.replicate n .busy) res 0 = (.busy, res, 122)) ∧
    (∀ n : Nat, 122 ≤ n → insertStepGo (List.replicate n .busy) 0 = (.busy, 122)) ∧
    (∀ s : String, csync_journal_query busyDb s = some (c_strlist_new 1)) ∧
    (∀ s : String, csync_journal_query busyStepDb s = some (c_strlist_new 1)) ∧
    (∀ s : String, s ≠ "" →
      csync_journal_insert busyDb s = (busyDb.lastInsertRowid, 121, 0)) := by
  refine ⟨?_, ?_, ?_, ?_, ?_, ?_, ?_⟩
  · intro preps
    have := prepGo_calls_le preps 0 (by omega)
    omega
  · intro n hn
    have := prepGo_busy_replicate n 0 (by omega) (by omega)
    simpa using this
  · intro cols res n hn
    have := stepGo_busy_replicate n cols res 0 (by omega) (by omega)
    simpa using this
  · intro n hn
    have := insertStepGo_busy_replicate n 0 (by omega) (by omega)
    simpa using this
  · intro s
    rfl
  · intro s
    rfl
  · intro s hs
    simp [csync_journal_insert, hs]
    rfl

/-- C4 witness: the bounded-retry facts of `C4_busy_retry_bounds`
instantiated at concrete inputs. -/
theorem C4_busy_retry_bounds_witness :
    prepGo (List.replicate 121 .busy) 0 = (.busy, 121) ∧
    stepGo 3 (List.replicate 122 .busy) none 0 = (.busy, none, 122) ∧
    insertStepGo (List.replicate 122 .busy) 0 = (.busy, 122) ∧
    csync_journal_insert busyDb "INSERT INTO metadata VALUES (1);" =
      (busyDb.lastInsertRowid, 121, 0) :=
  ⟨C4_busy_retry_bounds.2.1 121 (by omega),
   C4_busy_retry_bounds.2.2.1 3 none 122 (by omega),
   C4_busy_retry_bounds.2.2.2.1 122 (by omega),
   C4_busy_retry_bounds.2.2.2.2.2.2 "INSERT INTO metadata VALUES (1);" (by decide)⟩

/-- C8: `csync_journal_insert` never raises: it is a total function whose
return value is the connection's last-insert-row-id for every non-empty
statement — whether the statement completed or the busy/schema retries
were exhausted — and the empty statement is a no-op returning 0 with no
database interaction (no prepare and no step call).  The last conjunct
exercises the schema-drift-exhaustion path: ten rounds are run and the
row-id is still returned. -/
theorem C8_insert_returns_rowid (db : DbEnv) (s : String) :
    (s ≠ "" → (csync_journal_insert db s).1 = db.lastInsertRowid) ∧
    csync_journal_insert db "" = (0, 0, 0) ∧
    csync_journal_insert schemaDb "UPDATE metadata SET key = 0;" = (7, 10, 10) := by
  refine ⟨?_, ?_, ?_⟩
  · intro h
    simp [csync_journal_insert, h]
  · rfl
  · rfl

/-- C8 witness: `C8_insert_returns_rowid` at a concrete handle and
statement. -/
theorem C8_insert_returns_rowid_witness :
    (csync_journal_insert schemaDb "INSERT INTO metadata VALUES (1);").1 =
      schemaDb.lastInsertRowid :=
  (C8_insert_returns_rowid schemaDb "INSERT INTO metadata VALUES (1);").1 (by decide)

/-- The command line of the C3 scenario: an explicit user name followed
by `-p <pass>`. -/
def c3Args : List String :=
  ["owncloudcmd", "-u", "alice", "-p", "secret", "/tmp/src",
   "http://example.org/remote.php/webdav"]

/-- What `parseOptions` produces for `c3Args`. -/
def c3Parsed : CmdOptions :=
  { initialOptions with
    source_dir := "/tmp/src",
    target_url := "owncloud://example.org/remote.php/webdav",
    user := "secret" }

/-- C3: the claim says `--password <pass>`/`-p <pass>` stores the value
as the password.  The code's `-p` branch (cmd.cpp line 186) assigns
`options->user = it.next()`, contradicting the program's own help text
(`--password, -p [pass]  Use [pass] as password`): the parsed options
carry `user = "secret"` (the `-u alice` value is overwritten) and an
empty password, and the subsequent credential resolution therefore
authenticates with the URL password (or a prompt), never with the `-p`
value. -/
theorem C3_password_option_overwrites_user :
    parseOptions (fun _ => true) c3Args initialOptions = .ok c3Parsed ∧
    c3Parsed.user = "secret" ∧
    c3Parsed.password = "" ∧
    resolveCredentials c3Parsed "" "urlpw" "promptuser" "promptpw" =
      ("secret", "urlpw") := by
  refine ⟨?_, rfl, rfl, rfl⟩
  rfl

/-- C5: a journal whose first bytes do not match the SQLite magic header
is self-healed by `load`: the call succeeds (returns 0), the corrupt
content is removed from the journal path and replaced by a fresh empty
database, and the journal is reported as not previously existing
(`journal_exists` = 0).  The sidecar handle is `freshDb`: the sidecar
copy of a freshly created database has no `metadata` table, so preparing
the probe fails and the probe yields the empty sentinel. -/
theorem C5_corrupt_journal_self_heals
    (env : LoadEnv) (fs : Fs) (ctx : Ctx) (j : String) (c : List Nat)
    (hfile : fs j = some c)
    (hbad : cstrOf (bufOf c) ≠ magicBytes)
    (hne : c ≠ emptyDb)
    (hcreate : env.openOk j none = true)
    (hasp : env.asprintfOk = true)
    (hcopy : env.copyOk j (j ++ ".ctmp") = true)
    (hopen : env.openOk (j ++ ".ctmp") (some emptyDb) = true) :
    (csync_journal_load env freshDb fs ctx j).1 = 0 ∧
    (csync_journal_load env freshDb fs ctx j).2.1 j = some emptyDb ∧
    (csync_journal_load env freshDb fs ctx j).2.1 j ≠ some c ∧
    (csync_journal_load env freshDb fs ctx j).2.2.journal_exists = false := by
  have htmp := ne_append_ctmp j
  have hfs0 : fsSet fs j none j = none := by simp [fsSet]
  have hchk : csync_journal_check env fs j =
      (0, fsSet (fsSet fs j none) j (some emptyDb)) := by
    simp only [csync_journal_check, hfile, hbad, if_false, createDb, hfs0, hcreate,
      if_true]
  have hfs1 : fsSet (fsSet fs j none) j (some emptyDb) j = some emptyDb := by
    simp [fsSet]
  have hemp : csync_journal_is_empty freshDb = true := rfl
  have hload : csync_journal_load env freshDb fs ctx j =
      (0, fsSet (fsSet (fsSet fs j none) j (some emptyDb)) (j ++ ".ctmp") (some emptyDb),
        { ctx with journal := some (j ++ ".ctmp"), journal_exists := false }) := by
    simp only [csync_journal_load, hchk, hasp, hfs1, hcopy, hopen, hemp,
      not_true, if_false, if_true]
    norm_num
  have hfinal :
      fsSet (fsSet (fsSet fs j none) j (some emptyDb)) (j ++ ".ctmp") (some emptyDb) j =
        some emptyDb := by
    simp [fsSet, htmp]
  refine ⟨by rw [hload], ?_, ?_, by rw [hload]⟩
  · rw [hload]
    exact hfinal
  · rw [hload]
    show fsSet (fsSet (fsSet fs j none) j (some emptyDb)) (j ++ ".ctmp") (some emptyDb) j ≠
      some c
    rw [hfinal]
    intro hc
    injection hc with hc2
    exact hne hc2.symm

/-- C5 witness: `C5_corrupt_journal_self_heals` at a concrete corrupt
journal file. -/
theorem C5_corrupt_journal_self_heals_witness :
    (csync_journal_load happyEnv freshDb (fsJust "j.db" [1, 2, 3]) ⟨none, false⟩ "j.db").1 = 0 ∧
    (csync_journal_load happyEnv freshDb (fsJust "j.db" [1, 2, 3]) ⟨none, false⟩ "j.db").2.1 "j.db" =
      some emptyDb ∧
    (csync_journal_load happyEnv freshDb (fsJust "j.db" [1, 2, 3]) ⟨none, false⟩ "j.db").2.1 "j.db" ≠
      some [1, 2, 3] ∧
    (csync_journal_load happyEnv freshDb (fsJust "j.db" [1, 2, 3]) ⟨none, false⟩ "j.db").2.2.journal_exists =
      false :=
  C5_corrupt_journal_self_heals happyEnv (fsJust "j.db" [1, 2, 3]) ⟨none, false⟩
    "j.db" [1, 2, 3] (by rfl) (by decide) (by decide) (by rfl) (by rfl) (by rfl) (by rfl)

/-- Number of context creations in a flattened pass list: one per pass. -/
lemma countP_create_flatMap (l : List Nat) :
    ((l.flatMap passBlock).countP isCreate) = l.length := by
  induction l with
  | nil => rfl
  | cons a t ih =>
    simp [List.flatMap_cons, List.countP_append, List.countP_cons, passBlock, isCreate, ih]

/-- C6: with a reconciliation engine that reports "another sync needed"
after each of the first `N` passes and "clean" after the next, the
restart loop runs exactly `N + 1` passes: the trace equals the
concatenation of the per-pass blocks for passes `0, ..., N` — so each
pass has its own context and journal (fresh index), and the creation of
pass `k+1` appears only after pass `k`'s destroy and socket-stop events —
and the number of context creations is `N + 1`. -/
theorem C6_restart_loop_runs_n_plus_1_passes (N fuel : Nat) (hfuel : N + 1 ≤ fuel) :
    syncLoop (fun k => decide (k < N)) fuel 0 =
      (List.range (N + 1)).flatMap passBlock ∧
    (syncLoop (fun k => decide (k < N)) fuel 0).countP isCreate = N + 1 := by
  have h := syncLoop_run N (N + 1) 0 fuel (by omega) (by omega) hfuel
  rw [List.range_eq_range']
  refine ⟨h, ?_⟩
  rw [h, countP_create_flatMap, List.length_range']

/-- C6 witness: two repeat requests then clean gives exactly three
passes. -/
theorem C6_restart_loop_witness :
    syncLoop (fun k => decide (k < 2)) 3 0 = (List.range 3).flatMap passBlock ∧
    (syncLoop (fun k => decide (k < 2)) 3 0).countP isCreate = 3 :=
  C6_restart_loop_runs_n_plus_1_passes 2 3 (by omega)

/-- C7 counterexample: the claim says a partially-parseable proxy string
(host parses, port does not) falls back to `proxy_type = NoProxy`.  For
`"http://myhost:xyz"` the code instead writes `proxy_type = HttpProxy`
with the host and no port: a split part is never a null QString, so the
`!host.isNull()` guard at cmd.cpp line 316 always promotes a 3-part
string to `HttpProxy`. -/
theorem C7_cex_partial_parse_yields_httpproxy :
    setupExplicitProxy "http://myhost:xyz" = ⟨"HttpProxy", some "myhost", none⟩ ∧
    "HttpProxy" ≠ "NoProxy" := by
  exact ⟨rfl, by decide⟩

/-- C7 amended: a proxy string that does not split into exactly three
colon-separated parts yields `NoProxy` with no host/port entries; a
three-part `scheme://host:port` whose port parses to a nonzero 32-bit
value yields `HttpProxy` with the (slash-stripped) host and the port —
as the claim says for well-formed strings; and a three-part string whose
port does not parse still yields `HttpProxy` with the host and no port
(not `NoProxy` as the claim says), because the host part of a 3-way
split always "parses". -/
theorem C7_explicit_proxy_parsing :
    (∀ proxy : String, (qSplit proxy ':').length ≠ 3 →
      setupExplicitProxy proxy = ⟨"NoProxy", none, none⟩) ∧
    (∀ (proxy a b c : String) (n : Int),
      qSplit proxy ':' = [a, b, c] →
      qToInt c = (n, true) → n ≠ 0 →
      setupExplicitProxy proxy = ⟨"HttpProxy", some (stripSlashes b), some n⟩) ∧
    (∀ (proxy a b c : String),
      qSplit proxy ':' = [a, b, c] →
      (qToInt c).2 = false →
      setupExplicitProxy proxy = ⟨"HttpProxy", some (stripSlashes b), none⟩) := by
  refine ⟨?_, ?_, ?_⟩
  · intro proxy h
    simp [setupExplicitProxy, h]
  · intro proxy a b c n hsplit hq hn
    simp [setupExplicitProxy, hsplit, hq, hn]
  · intro proxy a b c hsplit hq
    simp [setupExplicitProxy, hsplit, hq]

/-- C7 witness: `C7_explicit_proxy_parsing` at concrete proxy strings. -/
theorem C7_explicit_proxy_parsing_witness :
    setupExplicitProxy "nocolons" = ⟨"NoProxy", none, none⟩ ∧
    setupExplicitProxy "http://h:8080" =
      ⟨"HttpProxy", some (stripSlashes "//h"), some 8080⟩ ∧
    setupExplicitProxy "http://h:x" =
      ⟨"HttpProxy", some (stripSlashes "//h"), none⟩ :=
  ⟨C7_explicit_proxy_parsing.1 "nocolons" (by decide),
   C7_explicit_proxy_parsing.2.1 "http://h:8080" "http" "//h" "8080" 8080
     (by rfl) (by rfl) (by decide),
   C7_explicit_proxy_parsing.2.2 "http://h:x" "http" "//h" "x" (by rfl) (by rfl)⟩

/-- C9: `csync_journal_load` binds the live handle, if it binds one at
all, to the sidecar path `<journal>.ctmp` and never to the original
journal path; consequently any write issued through the handle (as every
subsequent `csync_journal_query`/`csync_journal_insert` of the pass is)
leaves the byte content of the original journal file unchanged. -/
theorem C9_handle_bound_to_sidecar
    (env : LoadEnv) (db : DbEnv) (fs : Fs) (ctx : Ctx) (j : String)
    (h : ctx.journal = none) :
    ((csync_journal_load env db fs ctx j).2.2.journal = none ∨
      (csync_journal_load env db fs ctx j).2.2.journal = some (j ++ ".ctmp")) ∧
    ∀ c : List Nat,
      handleWrite (csync_journal_load env db fs ctx j).2.2
          (csync_journal_load env db fs ctx j).2.1 c j =
        (csync_journal_load env db fs ctx j).2.1 j := by
  have htmp := ne_append_ctmp j
  simp only [csync_journal_load]
  repeat' split
  all_goals simp_all [handleWrite, fsSet]

/-- C9 witness: `C9_handle_bound_to_sidecar` at a concrete load. -/
theorem C9_handle_bound_to_sidecar_witness :
    ((csync_journal_load happyEnv freshDb (fsJust "j.db" validHeader) ⟨none, false⟩ "j.db").2.2.journal = none ∨
      (csync_journal_load happyEnv freshDb (fsJust "j.db" validHeader) ⟨none, false⟩ "j.db").2.2.journal =
        some ("j.db" ++ ".ctmp")) ∧
    ∀ c : List Nat,
      handleWrite (csync_journal_load happyEnv freshDb (fsJust "j.db" validHeader) ⟨none, false⟩ "j.db").2.2
          (csync_journal_load happyEnv freshDb (fsJust "j.db" validHeader) ⟨none, false⟩ "j.db").2.1 c "j.db" =
        (csync_journal_load happyEnv freshDb (fsJust "j.db" validHeader) ⟨none, false⟩ "j.db").2.1 "j.db" :=
  C9_handle_bound_to_sidecar happyEnv freshDb (fsJust "j.db" validHeader)
    ⟨none, false⟩ "j.db" (by rfl)

/-- C10: when the metadata COUNT probe fails — the query returns the
zero-element sentinel, as it does when the sidecar stays locked past the
busy-retry ceiling or the statement errors — `csync_journal_load` sets
`journal_exists` to 0, exactly as it does for a genuinely fresh store
(`freshDb`), so callers cannot distinguish "journal unreadable at load
time" from "journal never existed". -/
theorem C10_probe_failure_indistinguishable_from_fresh
    (env : LoadEnv) (db : DbEnv) (fs fs1 : Fs) (ctx : Ctx) (j : String)
    (c : List Nat) (l : c_strlist_t)
    (hchk : csync_journal_check env fs j = (0, fs1))
    (hfile : fs1 j = some c)
    (hasp : env.asprintfOk = true)
    (hcopy : env.copyOk j (j ++ ".ctmp") = true)
    (hopen : env.openOk (j ++ ".ctmp") (some c) = true)
    (hq : csync_journal_query db probeStmt = some l)
    (hl : l.items = []) :
    (csync_journal_load env db fs ctx j).2.2.journal_exists = false ∧
    (csync_journal_load env freshDb fs ctx j).2.2.journal_exists = false := by
  have hempdb : csync_journal_is_empty db = true := by
    simp [csync_journal_is_empty, hq, hl]
  have hempfresh : csync_journal_is_empty freshDb = true := rfl
  constructor
  · simp only [csync_journal_load, hchk, hasp, hfile, hcopy, hopen, hempdb]
    norm_num
  · simp only [csync_journal_load, hchk, hasp, hfile, hcopy, hopen, hempfresh]
    norm_num

/-- C10 witness: `C10_probe_failure_indistinguishable_from_fresh` with a
permanently locked sidecar (`busyDb`): the probe exhausts its busy
retries, returns the sentinel, and the flag reads "journal does not
exist". -/
theorem C10_probe_failure_witness :
    (csync_journal_load happyEnv busyDb (fsJust "j.db" validHeader) ⟨none, false⟩ "j.db").2.2.journal_exists =
      false ∧
    (csync_journal_load happyEnv freshDb (fsJust "j.db" validHeader) ⟨none, false⟩ "j.db").2.2.journal_exists =
      false :=
  C10_probe_failure_indistinguishable_from_fresh happyEnv busyDb
    (fsJust "j.db" validHeader) (fsJust "j.db" validHeader) ⟨none, false⟩ "j.db"
    validHeader ⟨1, []⟩ (by rfl) (by rfl) (by rfl) (by rfl) (by rfl) (by rfl) (by rfl)

end Mirall
